import Mathlib

/-!
Verification of the natural-language specification of `visual_nav/dqn.py`
(vita-epfl/VisualNav) against a shallow embedding of its training code.

Conventions of the embedding:
* Python floats become `ℚ`.
* The environment's per-step time duration `self.time_step` is a positive real;
  every exponent the code builds with it has the shape `k * time_step` with
  `k : ℕ`, so `pow(gamma, k * time_step) = (pow(gamma, time_step))^k`.  The
  embedding therefore carries the single rational parameter `gammaDt`, which
  denotes `pow(self.gamma, self.time_step)`, and raises it to natural powers.
* Neural-network parameter vectors are an abstract type `P`; the network's
  numeric behaviour is an abstract `QFun` record (`gather` for
  `Q(obs).gather(1, action)`, `maxQ` for `Q(obs).max(1)[0]`).
* Batches are lists of `Transition`s, exactly the tuple shape returned by
  `replay_buffer.sample` in `Trainer._td_update`.
-/

namespace VisualNav

/-- One sampled transition as unpacked in `Trainer._td_update`
(dqn.py lines 393-394): observation (frames+goals merged into one abstract
`Obs`), action index, reward, next observation, done flag. -/
structure Transition (Obs : Type) where
  obs : Obs
  action : ℕ
  reward : ℚ
  nextObs : Obs
  done : Bool

/-- The float `done_mask` entry of a transition: 1.0 when the episode ended at
this transition, else 0.0 (see the comment at dqn.py lines 390-392). -/
def doneMask (done : Bool) : ℚ := if done then 1 else 0

/-- dqn.py line 402: `not_done_mask = 1 - done_mask`. -/
def notDoneMask (done : Bool) : ℚ := 1 - doneMask done

/-- The numeric behaviour of a Q network with parameter vector `p : P`:
`gather p o a` is `Q(o).gather(1, a)` (the value of action `a` at observation
`o`), `maxQ p o` is `Q(o).max(1)[0]` (the maximal action value at `o`). -/
structure QFun (P Obs : Type) where
  gather : P → Obs → ℕ → ℚ
  maxQ : P → Obs → ℚ

/-- The live/target network pair and the completed-update counter held by
`Trainer` (`self.Q`, `self.target_Q`, `self.num_param_updates`). -/
structure TrainerState (P : Type) where
  Q : P
  targetQ : P
  numParamUpdates : ℕ

/-- The bootstrap target computed for one transition in `Trainer._td_update`
(dqn.py lines 408-413): `reward + gammaDt * (not_done_mask * next_max_q)`,
where `next_max_q` is the **target** network's maximal value at the next
observation and `gammaDt` denotes `pow(self.gamma, self.time_step)`. -/
def tdTargetOf {Obs : Type} (qmaxTarget : Obs → ℚ) (gammaDt : ℚ)
    (tr : Transition Obs) : ℚ :=
  tr.reward + gammaDt * (notDoneMask tr.done * qmaxTarget tr.nextObs)

/-- dqn.py line 413: the batch of bootstrap targets, one per sampled
transition, with the next-state term evaluated on `s.targetQ`. -/
def targetQValues {P Obs : Type} (qf : QFun P Obs) (gammaDt : ℚ)
    (s : TrainerState P) (batch : List (Transition Obs)) : List ℚ :=
  batch.map (tdTargetOf (qf.maxQ s.targetQ) gammaDt)

/-- dqn.py line 407: `current_q_values`, the live network's value of the
stored action at each sampled observation. -/
def currentQValues {P Obs : Type} (qf : QFun P Obs) (s : TrainerState P)
    (batch : List (Transition Obs)) : List ℚ :=
  batch.map fun tr => qf.gather s.Q tr.obs tr.action

/-- dqn.py line 418: `torch.clamp(x, lo, hi) = min(max(x, lo), hi)`. -/
def clamp (x lo hi : ℚ) : ℚ := min (max x lo) hi

/-- dqn.py lines 416-418: the Bellman error `target - current` clipped to
`[-1, 1]`. -/
def clippedBellmanError (target current : ℚ) : ℚ :=
  clamp (target - current) (-1) 1

/-- dqn.py line 421: `d_error = clipped_bellman_error * -1.0`, the gradient
signal passed to `current_q_values.backward` on line 425. -/
def dError (target current : ℚ) : ℚ :=
  clippedBellmanError target current * (-1)

/-- The per-batch list of backpropagated gradient signals (dqn.py lines
416-425). -/
def dErrors {P Obs : Type} (qf : QFun P Obs) (gammaDt : ℚ)
    (s : TrainerState P) (batch : List (Transition Obs)) : List ℚ :=
  List.zipWith dError (targetQValues qf gammaDt s batch)
    (currentQValues qf s batch)

/-- One call of `Trainer._td_update` (dqn.py lines 388-438) at the level of
the network parameters: the optimizer (constructed over `self.Q.parameters()`
only, line 249) moves the live parameters using the backpropagated clipped
errors; the update counter is incremented; when the new counter is a multiple
of `target_update_freq` the target parameters are hard-copied from the live
ones (`self.target_Q.load_state_dict(self.Q.state_dict())`, lines 437-438),
otherwise they are left untouched.  `optStep p g` abstracts the effect of
`backward`+`optimizer.step()` on parameters `p` with gradient signals `g`. -/
def tdUpdate {P Obs : Type} (qf : QFun P Obs) (optStep : P → List ℚ → P)
    (gammaDt : ℚ) (targetUpdateFreq : ℕ) (batch : List (Transition Obs))
    (s : TrainerState P) : TrainerState P :=
  { Q := optStep s.Q (dErrors qf gammaDt s batch)
    targetQ :=
      if (s.numParamUpdates + 1) % targetUpdateFreq = 0 then
        optStep s.Q (dErrors qf gammaDt s batch)
      else s.targetQ
    numParamUpdates := s.numParamUpdates + 1 }

/-- Concrete instances used by the witness theorems. -/
def wQf : QFun ℚ ℚ :=
  { gather := fun p o a => p + o + (a : ℚ)
    maxQ := fun p o => p * o }

def wTrDone : Transition ℚ :=
  { obs := 2, action := 1, reward := 3, nextObs := 5, done := true }

def wNets : TrainerState ℚ := { Q := 1, targetQ := 2, numParamUpdates := 0 }

def wNets1 : TrainerState ℚ := { Q := 1, targetQ := 2, numParamUpdates := 1 }

def wOpt : ℚ → List ℚ → ℚ := fun p g => p + g.sum

/-- C1: for every sampled batch in a TD learning step, the bootstrap target of
each transition equals `reward + not_done * gammaDt * max_a Q_target(next)`
with the next-state term evaluated on the target network `s.targetQ`, and for
a transition with `done = true` the target collapses to the bare reward, no
matter what the target network outputs for the next state. -/
theorem td_bootstrap_target {P Obs : Type} (qf : QFun P Obs) (gammaDt : ℚ)
    (s : TrainerState P) (batch : List (Transition Obs)) :
    targetQValues qf gammaDt s batch
      = batch.map (fun tr =>
          tr.reward + notDoneMask tr.done * gammaDt * qf.maxQ s.targetQ tr.nextObs)
    ∧ ∀ tr ∈ batch, tr.done = true →
        tdTargetOf (qf.maxQ s.targetQ) gammaDt tr = tr.reward := by
  constructor
  · induction batch with
    | nil => rfl
    | cons hd tl ih =>
      simp only [targetQValues, List.map_cons] at ih ⊢
      rw [show tdTargetOf (qf.maxQ s.targetQ) gammaDt hd
            = hd.reward + notDoneMask hd.done * gammaDt * qf.maxQ s.targetQ hd.nextObs from by
          unfold tdTargetOf; ring, ih]
  · intro tr _ hdone
    unfold tdTargetOf notDoneMask doneMask
    rw [hdone]
    norm_num

/-- Witness for C1 at a concrete done-transition. -/
theorem td_bootstrap_target_witness :
    tdTargetOf (wQf.maxQ wNets.targetQ) (1/2) wTrDone = wTrDone.reward :=
  (td_bootstrap_target wQf (1/2) wNets [wTrDone]).2 wTrDone
    (List.mem_singleton.mpr rfl) rfl

/-- C6: the per-transition gradient signal backpropagated through the live
network is (the negation of) the Bellman error clamped to `[-1, 1]`: it equals
the raw error whenever that error lies in `[-1, 1]`, and has magnitude exactly
1 whenever the raw error exceeds 1 in magnitude. -/
theorem clipped_error_backprop (target current : ℚ) :
    dError target current = -(clamp (target - current) (-1) 1)
    ∧ (|target - current| ≤ 1 → dError target current = -(target - current))
    ∧ (1 < |target - current| → |dError target current| = 1) := by
  refine ⟨by unfold dError clippedBellmanError; ring, ?_, ?_⟩
  · intro h
    obtain ⟨h1, h2⟩ := abs_le.mp h
    unfold dError clippedBellmanError clamp
    rw [max_eq_left h1, min_eq_left h2]
    ring
  · intro h
    unfold dError clippedBellmanError clamp
    rcases lt_abs.mp h with h1 | h1
    · rw [max_eq_left (by linarith : (-1 : ℚ) ≤ target - current),
        min_eq_right (le_of_lt h1)]
      norm_num
    · rw [max_eq_right (by linarith : target - current ≤ (-1 : ℚ)),
        min_eq_left (by norm_num : (-1 : ℚ) ≤ 1)]
      norm_num

/-- Witness for C6: a raw error of 4 backpropagates with magnitude exactly 1. -/
theorem clipped_error_backprop_witness : |dError 5 1| = 1 :=
  (clipped_error_backprop 5 1).2.2 (by norm_num)

/-- C5: one TD learning step increments the completed-update counter by one,
moves the live parameters with the optimizer applied to the live parameters
only, and touches the target parameters exactly when the new counter is a
multiple of `target_update_freq`, at which point they become the live
parameters (hard copy); otherwise the target parameters are unchanged. -/
theorem target_sync_cadence {P Obs : Type} (qf : QFun P Obs)
    (optStep : P → List ℚ → P) (gammaDt : ℚ) (freq : ℕ)
    (batch : List (Transition Obs)) (s : TrainerState P) :
    (tdUpdate qf optStep gammaDt freq batch s).numParamUpdates
      = s.numParamUpdates + 1
    ∧ (tdUpdate qf optStep gammaDt freq batch s).Q
      = optStep s.Q (dErrors qf gammaDt s batch)
    ∧ ((s.numParamUpdates + 1) % freq = 0 →
        (tdUpdate qf optStep gammaDt freq batch s).targetQ
          = (tdUpdate qf optStep gammaDt freq batch s).Q)
    ∧ ((s.numParamUpdates + 1) % freq ≠ 0 →
        (tdUpdate qf optStep gammaDt freq batch s).targetQ = s.targetQ) := by
  refine ⟨rfl, rfl, ?_, ?_⟩
  · intro h
    simp [tdUpdate, h]
  · intro h
    simp [tdUpdate, h]

/-- Witness for C5: with `target_update_freq = 2` and one prior completed
update, the step that completes update number 2 hard-copies the live
parameters into the target network. -/
theorem target_sync_cadence_witness :
    (tdUpdate wQf wOpt (1/2) 2 [] wNets1).targetQ
      = (tdUpdate wQf wOpt (1/2) 2 [] wNets1).Q :=
  (target_sync_cadence wQf wOpt (1/2) 2 [] wNets1).2.2.1 (by decide)

/-!
Action selection in the non-episode-batched RL loop (dqn.py lines 261-266 and
373-381).  The oracle values of the two `random` draws are passed explicitly:
`sample` is the uniform `random.random()` draw in `[0, 1)` and `randAction`
the uniform `random.randrange(num_actions)` draw; `greedyAction` stands for
`model(frames, goals).data.max(1)[1]`, the arg-max action of the live Q
network on the stacked observation.
-/

/-- `Trainer._select_epsilon_greedy_action` (dqn.py lines 373-381): greedy
when the uniform draw exceeds the threshold, else the uniform random
action. -/
def selectEpsilonGreedyAction (epsThreshold sample : ℚ)
    (randAction greedyAction : ℕ) : ℕ :=
  if epsThreshold < sample then greedyAction else randAction

/-- dqn.py lines 261-266: epsilon-greedy with threshold
`exploration.value(t)` only once `t > learning_starts`; before that, always
the uniform random action. -/
def chooseActionRL (t learningStarts : ℕ) (epsThreshold sample : ℚ)
    (randAction greedyAction : ℕ) : ℕ :=
  if learningStarts < t then
    selectEpsilonGreedyAction epsThreshold sample randAction greedyAction
  else randAction

/-- C3 counterexample: at warmup step `t = 0 ≤ learning_starts = 50000` with
exploration threshold 1/2 and uniform draw 3/4 (which exceeds the threshold),
the code takes the random action 0 while the claimed epsilon-greedy rule
takes the greedy action 1. -/
theorem warmup_action_counterexample :
    chooseActionRL 0 50000 (1/2) (3/4) 0 1 = 0
    ∧ selectEpsilonGreedyAction (1/2) (3/4) 0 1 = 1
    ∧ chooseActionRL 0 50000 (1/2) (3/4) 0 1
        ≠ selectEpsilonGreedyAction (1/2) (3/4) 0 1 := by
  refine ⟨?_, ?_, ?_⟩ <;> norm_num [chooseActionRL, selectEpsilonGreedyAction]

/-- C3 (amended): once `t > learning_starts` the action is the epsilon-greedy
one — the uniform random action exactly when the uniform draw is at most the
exploration threshold (an event of probability `exploration.value(t)` for a
uniform draw on `[0, 1)`), the live network's arg-max action otherwise; at
steps `t ≤ learning_starts` the action is always the uniform random action. -/
theorem action_selection_spec (t ls : ℕ) (eps sample : ℚ)
    (randA greedyA : ℕ) :
    (ls < t → chooseActionRL t ls eps sample randA greedyA
        = selectEpsilonGreedyAction eps sample randA greedyA)
    ∧ (¬ ls < t → chooseActionRL t ls eps sample randA greedyA = randA)
    ∧ (sample ≤ eps → selectEpsilonGreedyAction eps sample randA greedyA = randA)
    ∧ (eps < sample →
        selectEpsilonGreedyAction eps sample randA greedyA = greedyA) := by
  refine ⟨fun h => ?_, fun h => ?_, fun h => ?_, fun h => ?_⟩
  · simp [chooseActionRL, h]
  · simp [chooseActionRL, h]
  · simp [selectEpsilonGreedyAction, not_lt.mpr h]
  · simp [selectEpsilonGreedyAction, h]

/-- Witness for C3 (amended), at a post-warmup step. -/
theorem action_selection_spec_witness :
    chooseActionRL 60000 50000 (1/2) (3/4) 0 1
      = selectEpsilonGreedyAction (1/2) (3/4) 0 1 :=
  (action_selection_spec 60000 50000 (1/2) (3/4) 0 1).1 (by norm_num)

/-!
Observation stacking in the episode-batched RL loop (dqn.py lines 297-310).
A single frame (or, by a second instantiation, a single goal vector) is a
value of an abstract type `F`; `zero` stands for `np.zeros_like(frame)`; the
list holds the frames of the current episode in chronological order, and
concatenation along the channel axis is list concatenation.
-/

/-- dqn.py lines 297-310: if fewer than `frame_history_len` frames have been
collected this episode, left-pad with zero frames up to `frame_history_len`;
otherwise take `frames[-4:]` — the Python slice keeps the last
`min(length, 4)` entries, i.e. drops `length - 4` from the front with
truncated subtraction. -/
def encodeEpisodeStack {F : Type} (frameHistoryLen : ℕ) (zero : F)
    (frames : List F) : List F :=
  if frames.length < frameHistoryLen then
    List.replicate (frameHistoryLen - frames.length) zero ++ frames
  else
    frames.drop (frames.length - 4)

/-- The stacking rule as the spec states it: the `H` most recent frames in
chronological order, left-padded with zero frames when fewer than `H`
exist. -/
def encodeStackSpec {F : Type} (H : ℕ) (zero : F) (frames : List F) :
    List F :=
  if frames.length < H then
    List.replicate (H - frames.length) zero ++ frames
  else
    frames.drop (frames.length - H)

/-- C8 counterexample: with `H = 2` and three frames observed, the code
stacks all three frames (the hardcoded `[-4:]` slice) instead of the last
two required by the claim. -/
theorem episode_stack_wrong_history_ce :
    encodeEpisodeStack 2 (0 : ℚ) [1, 2, 3] = [1, 2, 3]
    ∧ encodeStackSpec 2 (0 : ℚ) [1, 2, 3] = [2, 3]
    ∧ encodeEpisodeStack 2 (0 : ℚ) [1, 2, 3]
        ≠ encodeStackSpec 2 (0 : ℚ) [1, 2, 3] := by
  refine ⟨rfl, rfl, ?_⟩
  decide

/-- C8 (amended): for frame-history depth `H = 4` — the only depth this
program configures — the stacked observation is exactly the spec's rule: the
4 most recent frames of the episode, oldest first, left-padded with zeros
when fewer than 4 frames exist; in particular frames `f0..f5` stack to
`[f2, f3, f4, f5]` and two frames stack to `[0, 0, f0, f1]`. -/
theorem episode_stack_h4_correct {F : Type} (zero : F) (frames : List F) :
    encodeEpisodeStack 4 zero frames = encodeStackSpec 4 zero frames
    ∧ (∀ f0 f1 f2 f3 f4 f5 : F,
        encodeEpisodeStack 4 zero [f0, f1, f2, f3, f4, f5] = [f2, f3, f4, f5])
    ∧ (∀ f0 f1 : F,
        encodeEpisodeStack 4 zero [f0, f1] = [zero, zero, f0, f1]) :=
  ⟨rfl, fun _ _ _ _ _ _ => rfl, fun _ _ => rfl⟩

/-- C10 counterexample: with `H = 2` and an episode of length 2 (at least the
configured depth), the stack has exactly `frame_history_len = 2` entries even
though `frame_history_len ≠ 4` — and it is built from 2 frames, not 4. -/
theorem episode_stack_hardcoded_ce :
    2 ≤ ([1, 2] : List ℚ).length
    ∧ (encodeEpisodeStack 2 (0 : ℚ) [1, 2]).length = 2
    ∧ (2 : ℕ) ≠ 4 := by
  refine ⟨by decide, ?_, by decide⟩
  decide

/-- C10 (amended): for every episode point with at least 4 frames and at
least `frame_history_len` frames observed, the stack is exactly the last 4
frames — the hardcoded slice, independent of `frame_history_len` — so at such
points it has `frame_history_len` entries only when `frame_history_len`
equals 4. -/
theorem episode_stack_last_four {F : Type} (H : ℕ) (zero : F)
    (frames : List F) (h4 : 4 ≤ frames.length) (hH : H ≤ frames.length) :
    encodeEpisodeStack H zero frames = frames.drop (frames.length - 4)
    ∧ (encodeEpisodeStack H zero frames).length = 4
    ∧ ((encodeEpisodeStack H zero frames).length = H ↔ H = 4) := by
  have h1 : encodeEpisodeStack H zero frames
      = frames.drop (frames.length - 4) := by
    simp [encodeEpisodeStack, not_lt.mpr hH]
  have h2 : (frames.drop (frames.length - 4)).length = 4 := by
    rw [List.length_drop]
    omega
  refine ⟨h1, by rw [h1]; exact h2, ?_⟩
  rw [h1, h2]
  omega

/-- Witness for C10 (amended), at `H = 2` with five frames. -/
theorem episode_stack_last_four_witness :
    encodeEpisodeStack 2 (0 : ℚ) [1, 2, 3, 4, 5]
        = ([1, 2, 3, 4, 5] : List ℚ).drop
            (([1, 2, 3, 4, 5] : List ℚ).length - 4)
    ∧ (encodeEpisodeStack 2 (0 : ℚ) [1, 2, 3, 4, 5]).length = 4
    ∧ ((encodeEpisodeStack 2 (0 : ℚ) [1, 2, 3, 4, 5]).length = 2 ↔ 2 = 4) :=
  episode_stack_last_four 2 0 [1, 2, 3, 4, 5] (by decide) (by decide)

/-!
Episode-batched commit (dqn.py lines 325-334): a finished episode's buffered
observations and effects are written into the replay buffer only when the
terminal `info` is in the accept-list `['Success', 'Collision']`.  The buffer
is modelled as the chronological list of (observation, effect) pairs stored
so far; each loop iteration stores one observation and its effect, i.e.
appends one zipped pair.
-/

/-- dqn.py lines 325-329: `if info in ['Success', 'Collision']` commit the
episode's `zip(observations, effects)` pairs to the buffer in order,
otherwise store nothing. -/
def commitEpisode {Obs Eff : Type} (info : String) (observations : List Obs)
    (effects : List Eff) (buffer : List (Obs × Eff)) : List (Obs × Eff) :=
  if info = "Success" ∨ info = "Collision" then
    buffer ++ observations.zip effects
  else buffer

/-- C7: a stored pair is in the post-commit buffer iff it was already there
or the terminal info is in the accept-list and the pair is one of the
episode's (observation, effect) pairs; with any other terminal info the
buffer is left exactly as it was, so none of the episode's transitions ever
reach it. -/
theorem episode_commit_iff {Obs Eff : Type} (info : String)
    (observations : List Obs) (effects : List Eff)
    (buffer : List (Obs × Eff)) (x : Obs × Eff) :
    (x ∈ commitEpisode info observations effects buffer
      ↔ x ∈ buffer ∨ ((info = "Success" ∨ info = "Collision")
          ∧ x ∈ observations.zip effects))
    ∧ (info ≠ "Success" → info ≠ "Collision" →
        commitEpisode info observations effects buffer = buffer) := by
  constructor
  · by_cases h : info = "Success" ∨ info = "Collision"
    · simp [commitEpisode, h]
    · simp [commitEpisode, h]
  · intro h1 h2
    simp [commitEpisode, h1, h2]

/-- Witness for C7: an episode ending in `Timeout` commits nothing. -/
theorem episode_commit_iff_witness :
    commitEpisode "Timeout" [(1 : ℕ)] [(2 : ℕ)] ([] : List (ℕ × ℕ)) = [] :=
  (episode_commit_iff "Timeout" [1] [2] [] (1, 2)).2 (by decide) (by decide)

/-!
Monte-Carlo stored value (dqn.py lines 180-183): after an episode with
rewards `rewards[0..T-1]`, the value stored for the slot at within-episode
position `i` is
`sum(pow(gamma, max(t - i, 0) * time_step) * rewards[t] for t)`.
As everywhere in this file, `gammaDt` denotes `pow(gamma, time_step)`, so
`pow(gamma, max(t - i, 0) * time_step) = gammaDt ^ (t - i)` with ℕ-truncated
subtraction.
-/

/-- dqn.py lines 180-183: the value passed to `store_value` for position `i`;
note the sum runs over every reward of the episode, with the exponent clamped
at 0 for `t < i`. -/
def mcStoredValue (gammaDt : ℚ) (i : ℕ) (rewards : List ℚ) : ℚ :=
  (rewards.enum.map fun p => gammaDt ^ (p.1 - i) * p.2).sum

/-- Modelled from the spec: the Monte-Carlo return the spec prescribes,
`value[i] = Σ_{t ≥ i} gammaDt^(t-i) * rewards[t]`, with rewards at positions
`t < i` contributing nothing. -/
def mcStoredValueSpec (gammaDt : ℚ) (i : ℕ) (rewards : List ℚ) : ℚ :=
  (rewards.enum.map fun p =>
    if i ≤ p.1 then gammaDt ^ (p.1 - i) * p.2 else 0).sum

/-- C2: at `i = 1` with episode rewards `[1, 0]`, the code stores
`gammaDt^0 * 1 + gammaDt^0 * 0 = 1` — the reward at position `0 < i` enters
with weight 1 — while the claimed return is `0`. -/
theorem mc_value_includes_past_rewards :
    mcStoredValue (1/2) 1 [1, 0] = 1
    ∧ mcStoredValueSpec (1/2) 1 [1, 0] = 0
    ∧ mcStoredValue (1/2) 1 [1, 0] ≠ mcStoredValueSpec (1/2) 1 [1, 0] := by
  refine ⟨?_, ?_, ?_⟩ <;> norm_num [mcStoredValue, mcStoredValueSpec, List.enum]

/-!
Periodic logging and checkpointing (dqn.py lines 357-369).  Python resolves a
name inside `reinforcement_learning` against the function's local scope
(names assigned anywhere in the function body, including its parameters) and
then the module's global scope; a name in neither raises `NameError`.  The
two scopes are transcribed from the source below.
-/

/-- Names local to `Trainer.reinforcement_learning` (dqn.py lines 235-371):
its parameters and every name assigned in its body. -/
def reinforcementLearningLocals : List String :=
  ["self", "optimizer_spec", "exploration", "learning_starts",
   "learning_freq", "num_timesteps", "episode_update",
   "statistics_file", "writer", "episode_starts", "avg_reward",
   "success_rate", "collision_rate", "overtime_rate", "avg_time",
   "best_avg_episode_reward", "last_obs", "optimizer", "t", "last_idx",
   "recent_observations", "eps_threshold", "action", "obs", "reward",
   "done", "info", "frame", "goal", "frames", "goals", "effects",
   "observations", "frame_concat", "goal_concat", "num_last_episodes",
   "episode_rewards", "num_episodes"]

/-- Names bound at module level in dqn.py: the imports (lines 1-28) and the
module's own definitions. -/
def dqnModuleGlobals : List String :=
  ["sys", "namedtuple", "count", "random", "logging", "os", "argparse",
   "shutil", "pprint", "configparser", "git", "gym", "np", "torch", "nn",
   "F", "optim", "SummaryWriter", "ActionXY", "ActionRot", "ORCA", "SARL",
   "ReplayBuffer", "MyMonitor", "LinearSchedule", "ConstantSchedule",
   "VisualSim", "OptimizerSpec", "DQN", "Trainer", "main"]

/-- Python name resolution inside `reinforcement_learning`: local scope, then
module globals, else `NameError`. -/
def resolveName (n : String) : Except String Unit :=
  if n ∈ reinforcementLearningLocals ∨ n ∈ dqnModuleGlobals then
    Except.ok ()
  else
    Except.error ("NameError: name " ++ n ++ " is not defined")

/-- dqn.py lines 357-369: at steps with `t % log_every_n_steps == 0` and
`t > learning_starts`, dump the scalar statistics
(`writer.export_scalars_to_json(statistics_file)`, which resolves the local
`statistics_file`) and then save the live network's weights
(`torch.save(self.Q.state_dict(), weights_file)`, which must resolve
`weights_file`). -/
def logAndCheckpoint (t learningStarts logEveryNSteps : ℕ) :
    Except String Unit :=
  if t % logEveryNSteps = 0 ∧ learningStarts < t then do
    resolveName "statistics_file"
    resolveName "weights_file"
  else Except.ok ()

/-- C9: at the first qualifying logging step (`t = 60000` with
`learning_starts = 50000`, `log_every_n_steps = 10000`) the checkpoint write
raises `NameError`, because `weights_file` is assigned neither in
`reinforcement_learning` nor at module scope. -/
theorem checkpoint_name_error :
    logAndCheckpoint 60000 50000 10000
      = Except.error "NameError: name weights_file is not defined" := by
  rfl

/-!
One iteration of the non-episode-batched RL loop (dqn.py lines 257-280).
The replay buffer — whose implementation lives outside this file's source —
is kept abstract behind a `BufferOps` record; the only assumption used is the
spec's coherence between `can_sample` and `sample` (spec §4.1/§7: `sample`
fails with `InsufficientDataError` exactly when there are not enough valid
transitions, i.e. when `can_sample` is false).  Environment stepping and the
two `random` draws are oracles indexed by the step counter `t`.
-/

/-- The replay-buffer operations used by the loop: `storeObservation` returns
the updated buffer and the `last_idx` of the written slot, `storeEffect`
completes that slot with `(action, reward, done)`, `canSample` gates
learning, and `sample` yields a batch or fails (`InsufficientDataError`,
modelled as `none`). -/
structure BufferOps (B Obs Batch : Type) where
  storeObservation : B → Obs → B × ℕ
  storeEffect : B → ℕ → ℕ × ℚ × Bool → B
  canSample : B → ℕ → Bool
  sample : B → ℕ → Option Batch

/-- External oracles of one loop iteration: `stepResult t` is the
`(obs, reward, done)` triple `env.step` returns at step `t`, `resetObs t`
the observation from `env.reset()` if the episode ended, `epsSample` and
`randAction` the two `random` draws, `greedyAction` the live network's
arg-max action over the stacked observation, and `explorationValue` the
schedule `exploration.value`. -/
structure EnvOracle (Obs : Type) where
  stepResult : ℕ → Obs × ℚ × Bool
  resetObs : ℕ → Obs
  epsSample : ℕ → ℚ
  randAction : ℕ → ℕ
  greedyAction : ℕ → ℕ
  explorationValue : ℕ → ℚ

/-- The loop-carried state of `reinforcement_learning`: the step counter `t`,
the replay buffer, and `last_obs`. -/
structure RLState (B Obs : Type) where
  t : ℕ
  buffer : B
  lastObs : Obs

/-- The action chosen at lines 261-266, wired to `chooseActionRL`. -/
def rlStepAction {B Obs : Type} (env : EnvOracle Obs) (ls : ℕ)
    (st : RLState B Obs) : ℕ :=
  chooseActionRL st.t ls (env.explorationValue st.t) (env.epsSample st.t)
    (env.randAction st.t) (env.greedyAction st.t)

/-- The buffer after lines 258 and 270: `store_observation(last_obs)`
followed by `store_effect(last_idx, action, reward, done)`. -/
def rlStepBuffer {B Obs Batch : Type} (ops : BufferOps B Obs Batch)
    (env : EnvOracle Obs) (ls : ℕ) (st : RLState B Obs) : B :=
  ops.storeEffect (ops.storeObservation st.buffer st.lastObs).1
    (ops.storeObservation st.buffer st.lastObs).2
    (rlStepAction env ls st, (env.stepResult st.t).2.1,
      (env.stepResult st.t).2.2)

/-- `last_obs` after lines 272-275: the reset observation when `done`, else
the observation `env.step` returned. -/
def rlStepNextObs {B Obs : Type} (env : EnvOracle Obs)
    (st : RLState B Obs) : Obs :=
  if (env.stepResult st.t).2.2 = true then env.resetObs st.t
  else (env.stepResult st.t).1

/-- The learning gate of lines 277-278:
`t > learning_starts and t % learning_freq == 0 and
replay_buffer.can_sample(batch_size)`, evaluated on the buffer after this
step's two stores. -/
def learningGate {B Obs Batch : Type} (ops : BufferOps B Obs Batch)
    (env : EnvOracle Obs) (ls lf bs : ℕ) (st : RLState B Obs) : Bool :=
  decide (ls < st.t) && decide (st.t % lf = 0)
    && ops.canSample (rlStepBuffer ops env ls st) bs

/-- One iteration of the `while True` loop in the non-episode-batched branch
(dqn.py lines 257-280): store the observation and its effect, advance the
environment, then — exactly when the learning gate holds — run `_td_update`,
whose first statement draws a batch with `replay_buffer.sample` (line 394);
a failed draw (`InsufficientDataError`) would abort the iteration, modelled
as `none`.  The returned flag records whether `_td_update` ran. -/
def rlStep {B Obs Batch : Type} (ops : BufferOps B Obs Batch)
    (env : EnvOracle Obs) (ls lf bs : ℕ) (st : RLState B Obs) :
    Option (RLState B Obs × Bool) :=
  if learningGate ops env ls lf bs st then
    match ops.sample (rlStepBuffer ops env ls st) bs with
    | some _ =>
        some (⟨st.t + 1, rlStepBuffer ops env ls st, rlStepNextObs env st⟩,
          true)
    | none => none
  else
    some (⟨st.t + 1, rlStepBuffer ops env ls st, rlStepNextObs env st⟩,
      false)

/-- C4: in every state of the non-episode-batched loop — given only the
spec's coherence of `sample` with `can_sample` — the iteration never fails
(insufficient buffer fill only defers learning; `sample` is never invoked
when `can_sample` is false), and a TD update runs in the iteration exactly
when `t > learning_starts`, `t % learning_freq = 0` and `can_sample` holds on
the post-store buffer. -/
theorem td_gate_iff {B Obs Batch : Type} (ops : BufferOps B Obs Batch)
    (env : EnvOracle Obs) (ls lf bs : ℕ) (st : RLState B Obs)
    (hs : ∀ b n, (ops.sample b n).isSome = ops.canSample b n) :
    rlStep ops env ls lf bs st
      = some (⟨st.t + 1, rlStepBuffer ops env ls st, rlStepNextObs env st⟩,
          decide (ls < st.t ∧ st.t % lf = 0
            ∧ ops.canSample (rlStepBuffer ops env ls st) bs = true)) := by
  by_cases hg : ls < st.t ∧ st.t % lf = 0
      ∧ ops.canSample (rlStepBuffer ops env ls st) bs = true
  · have hgate : learningGate ops env ls lf bs st = true := by
      simp [learningGate, hg.1, hg.2.1, hg.2.2]
    have h1 := hs (rlStepBuffer ops env ls st) bs
    rw [hg.2.2] at h1
    obtain ⟨x, hx⟩ := Option.isSome_iff_exists.mp h1
    simp only [rlStep, hgate, if_true, hx, decide_eq_true hg]
  · have hgate : learningGate ops env ls lf bs st = false := by
      simp only [learningGate, Bool.and_eq_false_iff]
      by_cases h1 : ls < st.t
      · by_cases h2 : st.t % lf = 0
        · right
          cases hcs : ops.canSample (rlStepBuffer ops env ls st) bs
          · rfl
          · exact absurd ⟨h1, h2, hcs⟩ hg
        · left; right; simpa using h2
      · left; left; simpa using h1
    simp only [rlStep, hgate, if_false, Bool.false_eq_true,
      decide_eq_false hg]

/-- A concrete buffer (fill-count model) and environment for the C4 witness:
`can_sample` and `sample` agree as the spec requires. -/
def wBufOps : BufferOps ℕ Unit Unit :=
  { storeObservation := fun b _ => (b + 1, b)
    storeEffect := fun b _ _ => b
    canSample := fun b n => decide (n + 1 ≤ b)
    sample := fun b n => if n + 1 ≤ b then some () else none }

def wEnvO : EnvOracle Unit :=
  { stepResult := fun _ => ((), 0, false)
    resetObs := fun _ => ()
    epsSample := fun _ => 0
    randAction := fun _ => 0
    greedyAction := fun _ => 0
    explorationValue := fun _ => 0 }

/-- Witness for C4: at `t = 8` (past `learning_starts = 0`, divisible by
`learning_freq = 4`) with a filled buffer, the iteration succeeds and the
learning flag equals the gate condition. -/
theorem td_gate_iff_witness :
    rlStep wBufOps wEnvO 0 4 2 ⟨8, 10, ()⟩
      = some (⟨8 + 1, rlStepBuffer wBufOps wEnvO 0 ⟨8, 10, ()⟩,
            rlStepNextObs wEnvO ⟨8, 10, ()⟩⟩,
          decide (0 < 8 ∧ 8 % 4 = 0
            ∧ wBufOps.canSample (rlStepBuffer wBufOps wEnvO 0 ⟨8, 10, ()⟩) 2
                = true)) :=
  td_gate_iff wBufOps wEnvO 0 4 2 ⟨8, 10, ()⟩
    (fun b n => by by_cases h : n + 1 ≤ b <;> simp [wBufOps, h])

end VisualNav
